import Mathlib

/-!
Verification of the supplychainlib adapters: a shallow embedding of the
Python sources (aws_dynamodb.py, aws_s3.py, aws_sns.py, aws_lambda.py,
utility.py) together with proofs about the embedded operations.

Modelling conventions:
* The adapter code observes a Python float only through `str(value)`, so a
  `Val.vfloat` carries the decimal (`Dec`) that the float's shortest `str`
  representation denotes — that is everything `Decimal(str(value))` sees.
  A float's exact binary value generally differs from that decimal's value
  (`1e23` is exactly 99999999999999991611392 while its `str` denotes
  `10 ^ 23`), so for the round-trip claim the application-side type `FVal`
  keeps a float's exact value and its repr decimal distinct.
* Python values that can appear in an item (int, bool, float, Decimal, str,
  None, list, dict) are the mutual inductives `Val`/`ValList`/`ValDict`.
* Fallible remote calls are passed in as `Except`-valued arguments; a Python
  function that can raise is embedded with an `Except` result type.
* `try/except` blocks and truthiness tests are translated clause by clause.
-/

/-- An exact decimal number `man / 10 ^ exp`, the model of Python's
`decimal.Decimal` (and, on the write side, of the float it was made from). -/
structure Dec where
  man : Int
  exp : Nat
deriving DecidableEq, Repr

/-- The rational value denoted by a decimal. -/
def Dec.val (d : Dec) : Rat := (d.man : Rat) / ((10 : Rat) ^ d.exp)

/-- Python `value % 1 == 0` on a `Decimal`: the fractional part is zero,
i.e. `10 ^ exp` divides the mantissa. -/
def Dec.isIntegral (d : Dec) : Bool := d.man % ((10 : Int) ^ d.exp) == 0

/-- Python `int(value)` on an integral `Decimal` (exact, since the fractional
part is zero). -/
def Dec.toInt (d : Dec) : Int := d.man / ((10 : Int) ^ d.exp)

mutual
/-- A Python value as it can appear in a DynamoDB item. -/
inductive Val where
  | vint : Int → Val
  | vbool : Bool → Val
  | vfloat : Dec → Val
  | vdec : Dec → Val
  | vstr : String → Val
  | vnone : Val
  | vlist : ValList → Val
  | vdict : ValDict → Val
deriving DecidableEq

/-- A Python list of values. -/
inductive ValList where
  | nil : ValList
  | cons : Val → ValList → ValList
deriving DecidableEq

/-- A Python dict from attribute names to values (in insertion order). -/
inductive ValDict where
  | nil : ValDict
  | cons : String → Val → ValDict → ValDict
deriving DecidableEq
end

mutual
/-- `DynamoDBManager._prepare_for_dynamo`'s inner `convert`: floats become
`Decimal(str(value))`, dicts and lists are converted recursively, everything
else is returned unchanged.  (`isinstance(True, float)` is false in Python,
so booleans are unchanged.) -/
def prepConvert : Val → Val
  | .vfloat d => .vdec d
  | .vdict m => .vdict (prepConvertDict m)
  | .vlist l => .vlist (prepConvertList l)
  | v => v

def prepConvertList : ValList → ValList
  | .nil => .nil
  | .cons v vs => .cons (prepConvert v) (prepConvertList vs)

def prepConvertDict : ValDict → ValDict
  | .nil => .nil
  | .cons k v rest => .cons k (prepConvert v) (prepConvertDict rest)
end

/-- `DynamoDBManager._prepare_for_dynamo`: convert every float-valued field of
an item (recursively) to a `Decimal`. -/
def prepare_for_dynamo (item : ValDict) : ValDict := prepConvertDict item

mutual
/-- `DynamoDBManager._deserialize_item`'s inner `convert`: a `Decimal` becomes
`int(value)` when `value % 1 == 0` and `float(value)` otherwise; dicts and
lists are converted recursively; everything else is unchanged. -/
def deserConvert : Val → Val
  | .vdec d => if d.isIntegral then .vint d.toInt else .vfloat d
  | .vdict m => .vdict (deserConvertDict m)
  | .vlist l => .vlist (deserConvertList l)
  | v => v

def deserConvertList : ValList → ValList
  | .nil => .nil
  | .cons v vs => .cons (deserConvert v) (deserConvertList vs)

def deserConvertDict : ValDict → ValDict
  | .nil => .nil
  | .cons k v rest => .cons k (deserConvert v) (deserConvertDict rest)
end

/-- `DynamoDBManager._deserialize_item`: `if not item: return None` (both
`None` and the empty dict are falsy), otherwise convert every field. -/
def deserialize_item : Option ValDict → Option ValDict
  | none => none
  | some .nil => none
  | some m => some (deserConvertDict m)

/-! ### Application-side items for the round-trip claim

The adapter's conversions see a Python float only through `str(value)` (the
shortest decimal literal that reads back to the float).  A float's exact
binary value and the value its shortest decimal representation denotes differ
in general — `1e23` has exact value 99999999999999991611392 while
`str(1e23) = "1e+23"` denotes `10 ^ 23` — so an application-side value
carries both: `ffloat val repr` is the float with exact value `val` whose
`str` denotes the decimal `repr`.  A function `toFloat : Dec → Rat` gives the
exact value of the double `float(d)` (a decimal rounded to the nearest
double); CPython's repr contract `float(str(v)) == v` is the hypothesis
`toFloat repr = val`. -/

mutual
/-- An application-side value written to the Table Adapter. -/
inductive FVal where
  | fint : Int → FVal
  | fbool : Bool → FVal
  | ffloat : Rat → Dec → FVal
  | fstr : String → FVal
  | fnone : FVal
  | flist : FValList → FVal
  | fdict : FValDict → FVal
deriving DecidableEq

/-- An application-side list. -/
inductive FValList where
  | nil : FValList
  | cons : FVal → FValList → FValList
deriving DecidableEq

/-- An application-side dict. -/
inductive FValDict where
  | nil : FValDict
  | cons : String → FVal → FValDict → FValDict
deriving DecidableEq
end

mutual
/-- The Python value the adapter receives for an application-side value: each
float contributes the decimal its `str` denotes, which is all the write-side
conversion `Decimal(str(value))` observes. -/
def FVal.toVal : FVal → Val
  | .fint n => .vint n
  | .fbool b => .vbool b
  | .ffloat _ r => .vfloat r
  | .fstr s => .vstr s
  | .fnone => .vnone
  | .flist l => .vlist (FValList.toValList l)
  | .fdict m => .vdict (FValDict.toValDict m)

def FValList.toValList : FValList → ValList
  | .nil => .nil
  | .cons w ws => .cons (FVal.toVal w) (FValList.toValList ws)

def FValDict.toValDict : FValDict → ValDict
  | .nil => .nil
  | .cons k w rest => .cons k (FVal.toVal w) (FValDict.toValDict rest)
end

/-- The exact numeric value of an application-side scalar; a float's is its
exact binary value, not the value of its decimal literal. -/
def fnumVal : FVal → Option Rat
  | .fint n => some (n : Rat)
  | .fbool b => some (if b then 1 else 0)
  | .ffloat v _ => some v
  | _ => none

/-- The exact numeric value of a scalar read back from the store: a
`vfloat d` in a read-back item is the float `float(d)`, whose exact value is
`toFloat d`; ints, bools and Decimals carry their exact values. -/
def outNumVal (toFloat : Dec → Rat) : Val → Option Rat
  | .vint n => some (n : Rat)
  | .vbool b => some (if b then 1 else 0)
  | .vfloat d => some (toFloat d)
  | .vdec d => some d.val
  | _ => none

mutual
/-- Python `==` between a read-back value and the original application-side
value: numeric kinds compare by exact value (CPython compares int, float and
Decimal exactly), strings and `None` by identity, lists and dicts pointwise. -/
def fpyEq (toFloat : Dec → Rat) : Val → FVal → Bool
  | .vstr s, .fstr t => s == t
  | .vnone, .fnone => true
  | .vlist l, .flist l2 => fpyEqList toFloat l l2
  | .vdict m, .fdict m2 => fpyEqDict toFloat m m2
  | a, b =>
    match outNumVal toFloat a, fnumVal b with
    | some x, some y => x == y
    | _, _ => false

def fpyEqList (toFloat : Dec → Rat) : ValList → FValList → Bool
  | .nil, .nil => true
  | .cons v vs, .cons w ws => fpyEq toFloat v w && fpyEqList toFloat vs ws
  | _, _ => false

def fpyEqDict (toFloat : Dec → Rat) : ValDict → FValDict → Bool
  | .nil, .nil => true
  | .cons k v rest, .cons k2 w rest2 =>
    k == k2 && fpyEq toFloat v w && fpyEqDict toFloat rest rest2
  | _, _ => false
end

mutual
/-- CPython's float-repr contract `float(str(v)) == v`, for every float in
the value: `toFloat` sends each float's repr decimal to its exact value. -/
def freprOk (toFloat : Dec → Rat) : FVal → Bool
  | .ffloat v r => toFloat r == v
  | .flist l => freprOkList toFloat l
  | .fdict m => freprOkDict toFloat m
  | _ => true

def freprOkList (toFloat : Dec → Rat) : FValList → Bool
  | .nil => true
  | .cons w ws => freprOk toFloat w && freprOkList toFloat ws

def freprOkDict (toFloat : Dec → Rat) : FValDict → Bool
  | .nil => true
  | .cons _ w rest => freprOk toFloat w && freprOkDict toFloat rest
end

mutual
/-- Whether every float in the value survives the decimal round trip: its
shortest repr is non-integral (the read side turns it back into a float), or
it is integral and denotes the float's exact value. -/
def fgood : FVal → Bool
  | .ffloat v r => (!r.isIntegral) || (r.val == v)
  | .flist l => fgoodList l
  | .fdict m => fgoodDict m
  | _ => true

def fgoodList : FValList → Bool
  | .nil => true
  | .cons w ws => fgood w && fgoodList ws

def fgoodDict : FValDict → Bool
  | .nil => true
  | .cons _ w rest => fgood w && fgoodDict rest
end

/-! ### The Table Adapter's scan (aws_dynamodb.py, `scan_table`)

The paged store is modelled as a list of segments; a scan request returns one
segment's items (filtered when the request carries filter arguments) and a
continuation token, modelled by the remaining segments.  `none` as a start
token means "start from the beginning". -/

/-- One page of a store scan. -/
structure ScanResponse where
  pageItems : List ValDict
  lastEvaluatedKey : Option (List (List ValDict))
deriving DecidableEq

/-- The managed table's scan endpoint over a segmented table: serve the first
remaining segment (applying the filter only when the request carries it) and
hand back the rest as the continuation token. -/
def storeScan (segs : List (List ValDict)) (φ : ValDict → Bool) (useFilter : Bool)
    (startTok : Option (List (List ValDict))) : ScanResponse :=
  match startTok.getD segs with
  | [] => { pageItems := [], lastEvaluatedKey := none }
  | page :: more =>
    { pageItems := if useFilter then page.filter φ else page
    , lastEvaluatedKey := if more.isEmpty then none else some more }

/-- The `while "LastEvaluatedKey" in response` loop of `scan_table`: each
follow-up request passes only `ExclusiveStartKey`, NOT the original kwargs, so
the filter is never applied after the first page. -/
def scanWhile (segs : List (List ValDict)) (φ : ValDict → Bool) :
    Option (List (List ValDict)) → List ValDict → List ValDict
  | none, acc => acc
  | some tok, acc =>
    scanWhile segs φ (storeScan segs φ false (some tok)).lastEvaluatedKey
      (acc ++ (storeScan segs φ false (some tok)).pageItems)
termination_by tok _ => tok.elim 0 (fun t => t.length + 1)
decreasing_by
  cases tok with
  | nil => simp [storeScan]
  | cons page more =>
    cases h : more.isEmpty with
    | true => simp [storeScan, h]
    | false =>
      simp only [storeScan, Option.getD_some, h, Bool.false_eq_true, if_false,
        Option.elim_some, List.length_cons]
      omega

/-- `DynamoDBManager.scan_table`: first request with the caller's kwargs, then
the continuation loop, then `_deserialize_item` on every accumulated item. -/
def scan_table (segs : List (List ValDict)) (φ : ValDict → Bool) (useFilter : Bool) :
    List (Option ValDict) :=
  let resp := storeScan segs φ useFilter none
  let items := scanWhile segs φ resp.lastEvaluatedKey resp.pageItems
  items.map (fun i => deserialize_item (some i))

/-- From the spec's words, for comparison with `scan_table`: the pages the
store reports for the caller's arguments (the filter applied to every page
when given), whose union scan is claimed to return. -/
def specScanPages (segs : List (List ValDict)) (φ : ValDict → Bool) (useFilter : Bool) :
    List (List ValDict) :=
  segs.map (fun page => if useFilter then page.filter φ else page)

/-! ### The Table Adapter's update and `add_stock` (aws_dynamodb.py) -/

/-- The request `DistributorInventoryManager.add_stock` builds and passes to
`update_item` (which forwards it verbatim to the store): the key dict is
`{"id": distributor_id#product_id}`, and the values dict binds `:q` to
`int(quantity)` and `:z` to `0`. -/
structure UpdateRequest where
  keyId : String
  update_expr : String
  values : List (String × Int)
deriving DecidableEq

/-- `DistributorInventoryManager.add_stock`. -/
def add_stock (distributor_id product_id : String) (quantity : Int) : UpdateRequest :=
  { keyId := distributor_id ++ "#" ++ product_id
  , update_expr := "SET quantity = if_not_exists(quantity, :z) + :q"
  , values := [(":q", quantity), (":z", 0)] }

/-- Modelled from the spec: the external managed store's evaluation of the
update expression `SET quantity = if_not_exists(quantity, :z) + :q`, which is
not repository code.  Per the spec it sets the keyed item's `quantity`
attribute to its previous value — the value bound to `:z` (zero) when the
attribute is missing — plus the value bound to `:q`.  The table is modelled
as a map from key to the optional quantity attribute. -/
def applyAddStockUpdate (table : String → Option Int) (r : UpdateRequest) :
    String → Option Int :=
  fun k =>
    if k = r.keyId then
      some (((table r.keyId).getD (((r.values.filter (fun p => p.1 == ":z")).head?.map Prod.snd).getD 0)) +
        (((r.values.filter (fun p => p.1 == ":q")).head?.map Prod.snd).getD 0))
    else table k

/-! ### The Table Adapter's get (aws_dynamodb.py, `get_item`) -/

/-- `DynamoDBManager.get_item`: the underlying call either raises (`.error`)
or returns a response whose optional `"Item"` entry is the item; the `except`
clause logs and returns `None`, and `response.get("Item")` is `None` for a
missing key. -/
def get_item (store : ValDict → Except String (Option ValDict)) (key : ValDict) :
    Option ValDict :=
  match store key with
  | .ok item => item
  | .error _ => none

/-! ### The Object Store Adapter (aws_s3.py, `S3Manager.__init__`) -/

/-- Python `str.strip()` with no argument: remove leading and trailing
whitespace. -/
def pyStrip (s : String) : String :=
  String.mk (((s.data.dropWhile Char.isWhitespace).reverse.dropWhile Char.isWhitespace).reverse)

/-- A remote-facing action the S3 constructor can perform, in order. -/
inductive S3Action where
  | createClient (region : String)
  | listBucketsCall
  | createBucket (bucket : String) (locationConstraint : Option String)
deriving DecidableEq

/-- `S3Manager.__init__`.  The argument is `some s` for a string
`bucket_name` and `none` for any non-string value (including the default
`None`); `region_name` is `some r` for a string and `none` for a falsy value
(the `or "us-east-1"` fallback).  The result pairs the trace of remote-facing
actions actually performed with either the raised `ValueError` or the stripped
bucket name.  The validity check precedes client creation and
`_ensure_bucket_exists` (which lists buckets and creates the bucket when
absent, with the region-specific parameter split). -/
def s3Init (bucket_name : Option String) (region_name : Option String)
    (existingBuckets : List String) : List S3Action × Except String String :=
  match bucket_name with
  | none => ([], .error "S3Manager: A valid S3 bucket name (string) must be provided.")
  | some s =>
    if pyStrip s = "" then
      ([], .error "S3Manager: A valid S3 bucket name (string) must be provided.")
    else
      let b := pyStrip s
      let region := match region_name with
        | some r => if r = "" then "us-east-1" else r
        | none => "us-east-1"
      let acts := [S3Action.createClient region, S3Action.listBucketsCall]
      let acts :=
        if existingBuckets.contains b then acts
        else acts ++ [if region = "us-east-1" then S3Action.createBucket b none
                      else S3Action.createBucket b (some region)]
      (acts, .ok b)

/-! ### The Notification Adapter (aws_sns.py, `SNSManager`)

The adapter's own state is its `topic_arn` attribute.  The provider side
(current subscriptions of the topic, the subscription ARN the provider would
assign next, the receipt a publish returns) is a `SNSWorld`.  Each operation
returns its result (`Except` for a raised error), the adapter state after the
call, the provider world after the call, and the trace of remote calls made. -/

/-- A subscription as returned by `list_subscriptions_by_topic`: a dict whose
`"Endpoint"` and `"SubscriptionArn"` entries may be absent (`sub.get`). -/
structure SNSSub where
  endpoint : Option String
  subscriptionArn : Option String
deriving DecidableEq

/-- The provider-side world: the topic's current subscriptions, the ARN the
provider assigns to the next created subscription, and the receipt returned
for a publish. -/
structure SNSWorld where
  subs : List SNSSub
  nextArn : String
  pubReceipt : String
deriving DecidableEq

/-- The adapter's own mutable state: the `topic_arn` attribute. -/
structure SNSState where
  topic_arn : Option String
deriving DecidableEq

/-- Python truthiness of `self.topic_arn` (`None` and `""` are falsy). -/
def SNSState.topicTruthy (st : SNSState) : Bool :=
  match st.topic_arn with
  | none => false
  | some a => a != ""

/-- A remote call made by the Notification Adapter. -/
inductive SNSAction where
  | subscribeCall (topicArn protocol endpoint : String)
      (filterPolicy : Option (List (String × List String)))
  | listSubsCall (topicArn : String)
  | publishCall (topicArn subject message : String)
deriving DecidableEq

/-- Modelled from the spec (provider behavior, not repository code): a
successful `sns_client.subscribe` registers a subscription binding the
endpoint to the topic, visible in subsequent listings, and returns its ARN. -/
def snsWorldAfterSubscribe (w : SNSWorld) (endpoint : String) : SNSWorld :=
  { w with subs := w.subs ++ [{ endpoint := some endpoint, subscriptionArn := some w.nextArn }] }

/-- `SNSManager.subscribe`: raises `ValueError` before any remote call when
the topic ARN is unset; otherwise calls `sns_client.subscribe` and returns
the subscription ARN. -/
def SNSManager.subscribe (st : SNSState) (w : SNSWorld) (protocol endpoint : String)
    (filter_policy : Option (List (String × List String))) :
    Except String String × SNSState × SNSWorld × List SNSAction :=
  if st.topicTruthy then
    match st.topic_arn with
    | some arn =>
      (.ok w.nextArn, st, snsWorldAfterSubscribe w endpoint,
        [SNSAction.subscribeCall arn protocol endpoint filter_policy])
    | none => (.error "Topic ARN not set. Set or create a topic before subscribing.", st, w, [])
  else
    (.error "Topic ARN not set. Set or create a topic before subscribing.", st, w, [])

/-- `SNSManager.list_subscriptions`: raises `ValueError` when the topic ARN is
unset; otherwise lists the topic's subscriptions. -/
def SNSManager.list_subscriptions (st : SNSState) (w : SNSWorld) :
    Except String (List SNSSub) × SNSState × SNSWorld × List SNSAction :=
  if st.topicTruthy then
    match st.topic_arn with
    | some arn => (.ok w.subs, st, w, [SNSAction.listSubsCall arn])
    | none => (.error "Topic ARN not set.", st, w, [])
  else
    (.error "Topic ARN not set.", st, w, [])

/-- `SNSManager.publish_message`: raises `ValueError` when the topic ARN is
unset; otherwise publishes and returns the provider receipt. -/
def SNSManager.publish_message (st : SNSState) (w : SNSWorld) (subject message : String) :
    Except String String × SNSState × SNSWorld × List SNSAction :=
  if st.topicTruthy then
    match st.topic_arn with
    | some arn => (.ok w.pubReceipt, st, w, [SNSAction.publishCall arn subject message])
    | none => (.error "Topic ARN not set.", st, w, [])
  else
    (.error "Topic ARN not set.", st, w, [])

/-- `SNSManager.send_low_stock_alert`: formats the fixed message template and
delegates to `publish_message`. -/
def SNSManager.send_low_stock_alert (st : SNSState) (w : SNSWorld)
    (product_name : String) (quantity : Int) :
    Except String String × SNSState × SNSWorld × List SNSAction :=
  SNSManager.publish_message st w "Low Stock Alert"
    ("Product \x27" ++ product_name ++ "\x27 is below the reorder level (" ++
      toString quantity ++ " left).")

/-- `SNSManager.ensure_customer_subscription`: raises `ValueError` when the
topic ARN is unset; otherwise lists the topic's subscriptions, returns the
`SubscriptionArn` of the first one whose `Endpoint` equals the email, and only
when none matches subscribes the email with a filter policy on
`customer_email`. -/
def SNSManager.ensure_customer_subscription (st : SNSState) (w : SNSWorld)
    (customer_email : String) :
    Except String (Option String) × SNSState × SNSWorld × List SNSAction :=
  if st.topicTruthy then
    match st.topic_arn with
    | some arn =>
      match w.subs.find? (fun sub => sub.endpoint == some customer_email) with
      | some sub => (.ok sub.subscriptionArn, st, w, [SNSAction.listSubsCall arn])
      | none =>
        (.ok (some w.nextArn), st, snsWorldAfterSubscribe w customer_email,
          [SNSAction.listSubsCall arn,
           SNSAction.subscribeCall arn "email" customer_email
             (some [("customer_email", [customer_email])])])
    | none => (.error "Topic ARN not set.", st, w, [])
  else
    (.error "Topic ARN not set.", st, w, [])

/-! ### The Function Invoker (aws_lambda.py, `LambdaInvoker.invoke_function`) -/

/-- An error raised inside `invoke_function`'s `try` block: either a
`botocore.exceptions.ClientError` from the service, or any other error (for
example the `TypeError` that `json.dumps(payload)` raises on a payload that is
not JSON serializable). -/
inductive PyError where
  | clientError (msg : String)
  | otherError (msg : String)
deriving DecidableEq

/-- `LambdaInvoker.invoke_function`: one attempt at the remote call (no
retry); `except ClientError` logs and returns `None`; any other error
propagates to the caller.  `remote fn payload ty` is the outcome of
`json.dumps` plus `lambda_client.invoke` for those arguments. -/
def invoke_function (remote : String → String → String → Except PyError String)
    (function_name payload invocation_type : String) :
    Except PyError (Option String) :=
  match remote function_name payload invocation_type with
  | .ok resp => .ok (some resp)
  | .error (.clientError _) => .ok none
  | .error e => .error e

/-! ### Utility helpers (utility.py, `InventoryUtility.below_threshold`) -/

/-- The outcome of Python's `int(x)` on an arbitrary argument: a value, or a
raised `TypeError` (for example on `None`), `ValueError` (for example on
`"abc"` or `float("nan")`), or some other error — `int(float("inf"))` raises
`OverflowError`. -/
inductive CoerceResult where
  | ok (n : Int)
  | typeError
  | valueError
  | overflowError
deriving DecidableEq

/-- Whether `except (TypeError, ValueError)` catches the raised error. -/
def caughtByExcept : CoerceResult → Bool
  | .typeError => true
  | .valueError => true
  | _ => false

/-- `InventoryUtility.below_threshold`: `int(quantity)` is evaluated first,
then `int(threshold)`, then compared; a `TypeError` or `ValueError` from
either coercion is caught and yields `False`; any other raised error
propagates. -/
def below_threshold (quantity threshold : CoerceResult) : Except CoerceResult Bool :=
  match quantity, threshold with
  | .ok q, .ok t => .ok (decide (q ≤ t))
  | .ok _, e => if caughtByExcept e then .ok false else .error e
  | e, _ => if caughtByExcept e then .ok false else .error e

/-! ## Supporting lemmas -/

/-- On an integral decimal, Python's `int()` is exact: the integer's rational
value is the decimal's value. -/
theorem dec_toInt_cast (d : Dec) (h : d.isIntegral = true) : ((d.toInt : Int) : Rat) = d.val := by
  have h2 : ((10:Int) ^ d.exp) ∣ d.man := by
    refine Int.dvd_of_emod_eq_zero ?_
    simpa [Dec.isIntegral] using h
  obtain ⟨c, hc⟩ := h2
  unfold Dec.toInt Dec.val
  rw [hc, Int.mul_ediv_cancel_left _ (by positivity)]
  push_cast
  rw [mul_comm, mul_div_assoc, div_self (by positivity), mul_one]

/-- Scalar float round trip: under the repr contract, the value read back for
a float compares Python-`==` equal to it iff the float's repr decimal is
non-integral or denotes the float's exact value. -/
theorem fpyEq_roundtrip_ffloat (toFloat : Dec → Rat) (v : Rat) (r : Dec)
    (hc : toFloat r = v) :
    (fpyEq toFloat (deserConvert (prepConvert (.vfloat r))) (.ffloat v r) = true) ↔
      fgood (.ffloat v r) = true := by
  simp only [prepConvert, deserConvert]
  by_cases h : r.isIntegral
  · simp [h, fpyEq, outNumVal, fnumVal, fgood, dec_toInt_cast r h]
  · simp [h, fpyEq, outNumVal, fnumVal, fgood, hc]

mutual
/-- Write-then-read round trip, valuewise: under the repr contract, the
read-back value compares `==` to the original iff every contained float's
repr is non-integral or exact. -/
theorem froundtrip_val (toFloat : Dec → Rat) :
    ∀ w : FVal, freprOk toFloat w = true →
      (fpyEq toFloat (deserConvert (prepConvert (FVal.toVal w))) w = true ↔ fgood w = true)
  | .fint n, _ => by
    simp [FVal.toVal, prepConvert, deserConvert, fpyEq, outNumVal, fnumVal, fgood]
  | .fbool b, _ => by
    simp [FVal.toVal, prepConvert, deserConvert, fpyEq, outNumVal, fnumVal, fgood]
  | .ffloat v r, h => by
    have hc : toFloat r = v := by simpa [freprOk] using h
    simpa [FVal.toVal] using fpyEq_roundtrip_ffloat toFloat v r hc
  | .fstr s, _ => by
    simp [FVal.toVal, prepConvert, deserConvert, fpyEq, fgood]
  | .fnone, _ => by
    simp [FVal.toVal, prepConvert, deserConvert, fpyEq, fgood]
  | .flist l, h => by
    have ih := froundtrip_list toFloat l (by simpa [freprOk] using h)
    simpa [FVal.toVal, prepConvert, deserConvert, fpyEq, fgood] using ih
  | .fdict m, h => by
    have ih := froundtrip_dict toFloat m (by simpa [freprOk] using h)
    simpa [FVal.toVal, prepConvert, deserConvert, fpyEq, fgood] using ih

theorem froundtrip_list (toFloat : Dec → Rat) :
    ∀ l : FValList, freprOkList toFloat l = true →
      (fpyEqList toFloat (deserConvertList (prepConvertList (FValList.toValList l))) l = true ↔
        fgoodList l = true)
  | .nil, _ => by
    simp [FValList.toValList, prepConvertList, deserConvertList, fpyEqList, fgoodList]
  | .cons w ws, h => by
    rw [freprOkList, Bool.and_eq_true] at h
    have ih1 := froundtrip_val toFloat w h.1
    have ih2 := froundtrip_list toFloat ws h.2
    simp [FValList.toValList, prepConvertList, deserConvertList, fpyEqList, fgoodList,
      Bool.and_eq_true, ih1, ih2]

theorem froundtrip_dict (toFloat : Dec → Rat) :
    ∀ m : FValDict, freprOkDict toFloat m = true →
      (fpyEqDict toFloat (deserConvertDict (prepConvertDict (FValDict.toValDict m))) m = true ↔
        fgoodDict m = true)
  | .nil, _ => by
    simp [FValDict.toValDict, prepConvertDict, deserConvertDict, fpyEqDict, fgoodDict]
  | .cons k w rest, h => by
    rw [freprOkDict, Bool.and_eq_true] at h
    have ih1 := froundtrip_val toFloat w h.1
    have ih2 := froundtrip_dict toFloat rest h.2
    simp [FValDict.toValDict, prepConvertDict, deserConvertDict, fpyEqDict, fgoodDict,
      Bool.and_eq_true, ih1, ih2]
end

/-- C1 (amended): for every nonempty item of application-side values whose
floats satisfy CPython's repr contract (`str(v)` reads back to `v`, the
hypothesis on `toFloat`), the write-side conversion `_prepare_for_dynamo`
followed by the read-side conversion `_deserialize_item` yields an item that
compares Python-`==` equal to the original, field by field and recursively
through nested mappings and sequences, IF AND ONLY IF every contained float's
shortest decimal representation is non-integral or denotes the float's exact
value.  (As originally stated — for every finite float — the claim fails:
see the counterexample at `1e23`.) -/
theorem C1_write_read_roundtrip_iff (toFloat : Dec → Rat) (item : FValDict)
    (hwf : freprOkDict toFloat item = true) (hne : item ≠ FValDict.nil) :
    ∃ out, deserialize_item (some (prepare_for_dynamo (FValDict.toValDict item))) = some out ∧
      (fpyEqDict toFloat out item = true ↔ fgoodDict item = true) := by
  match item with
  | .nil => exact absurd rfl hne
  | .cons k w rest =>
    refine ⟨deserConvertDict (prepConvertDict (FValDict.toValDict (.cons k w rest))), ?_, ?_⟩
    · simp [prepare_for_dynamo, FValDict.toValDict, prepConvertDict, deserialize_item]
    · exact froundtrip_dict toFloat (.cons k w rest) hwf

/-- Counterexample to C1 as stated: the float `1e23`, which has a finite
decimal representation.  Its exact double value is 99999999999999991611392,
while `str(1e23) = "1e+23"` denotes exactly `10 ^ 23 =
100000000000000000000000`.  The repr contract holds at this input
(`float(Decimal("1E+23")) == 1e23` in CPython, modelled by the constant
`toFloat`), the decimal is integral, so the read side computes
`int(Decimal("1E+23")) = 10 ^ 23`, and CPython's exact int-float comparison
makes `decode(encode(1e23)) == 1e23` false. -/
theorem C1_counterexample :
    freprOkDict (fun _ => (99999999999999991611392 : Rat))
      (FValDict.cons "big"
        (FVal.ffloat 99999999999999991611392 ⟨100000000000000000000000, 0⟩)
        FValDict.nil) = true ∧
    deserialize_item (some (prepare_for_dynamo (FValDict.toValDict
      (FValDict.cons "big"
        (FVal.ffloat 99999999999999991611392 ⟨100000000000000000000000, 0⟩)
        FValDict.nil)))) =
      some (ValDict.cons "big" (Val.vint 100000000000000000000000) ValDict.nil) ∧
    fpyEqDict (fun _ => (99999999999999991611392 : Rat))
      (ValDict.cons "big" (Val.vint 100000000000000000000000) ValDict.nil)
      (FValDict.cons "big"
        (FVal.ffloat 99999999999999991611392 ⟨100000000000000000000000, 0⟩)
        FValDict.nil) = false := by
  refine ⟨?_, ?_, ?_⟩
  · simp [freprOkDict, freprOk]
  · simp [FValDict.toValDict, FVal.toVal, prepare_for_dynamo, prepConvertDict, prepConvert,
      deserialize_item, deserConvertDict, deserConvert, Dec.isIntegral, Dec.toInt]
  · simp [fpyEqDict, fpyEq, outNumVal, fnumVal]

/-- Witness for C1 at the float 10.5: exact value 21/2, repr `"10.5"`
denoting 105/10 (non-integral), so the round trip reproduces it. -/
theorem C1_write_read_roundtrip_iff_witness :
    ∃ out, deserialize_item (some (prepare_for_dynamo (FValDict.toValDict
        (FValDict.cons "price" (FVal.ffloat (21/2) ⟨105, 1⟩) FValDict.nil)))) = some out ∧
      (fpyEqDict (fun _ => (21/2 : Rat)) out
          (FValDict.cons "price" (FVal.ffloat (21/2) ⟨105, 1⟩) FValDict.nil) = true ↔
        fgoodDict (FValDict.cons "price" (FVal.ffloat (21/2) ⟨105, 1⟩) FValDict.nil) = true) :=
  C1_write_read_roundtrip_iff (fun _ => (21/2 : Rat))
    (FValDict.cons "price" (FVal.ffloat (21/2) ⟨105, 1⟩) FValDict.nil)
    (by simp [freprOkDict, freprOk]) (by simp)

/-- C8: for every integer-valued float (a decimal with zero fractional part),
decoding after encoding yields a value of integer type (`vint`), and the
read-side converter maps every decimal with zero fractional part to an int
and every other decimal to a float. -/
theorem C8_integer_valued_float_decodes_to_int :
    (∀ d : Dec, d.isIntegral = true →
      deserConvert (prepConvert (.vfloat d)) = .vint d.toInt) ∧
    (∀ d : Dec,
      deserConvert (.vdec d) = if d.isIntegral then .vint d.toInt else .vfloat d) := by
  constructor
  · intro d h
    simp [prepConvert, deserConvert, h]
  · intro d
    simp [deserConvert]

/-- Witness for C8 at the float 4.0 (the decimal 40 / 10). -/
theorem C8_integer_valued_float_decodes_to_int_witness :
    deserConvert (prepConvert (.vfloat ⟨40, 1⟩)) = .vint 4 :=
  C8_integer_valued_float_decodes_to_int.1 ⟨40, 1⟩ (by decide)

/-- The continuation loop concatenates exactly the remaining segments, each
unfiltered, because follow-up requests carry only the continuation token. -/
theorem scanWhile_eq_flatten (segs : List (List ValDict)) (φ : ValDict → Bool) :
    ∀ tok acc, scanWhile segs φ (some tok) acc = acc ++ tok.flatten := by
  intro tok
  induction tok with
  | nil => intro acc; simp [scanWhile, storeScan]
  | cons page more ih =>
    intro acc
    rw [scanWhile]
    cases h : more.isEmpty with
    | true =>
      have : more = [] := List.isEmpty_iff.mp h
      subst this
      simp [scanWhile, storeScan]
    | false =>
      simp only [storeScan, Option.getD_some, h, Bool.false_eq_true, if_false]
      rw [ih]
      simp

/-- C2 (amended): when `scan` is called with no extra arguments, it follows
continuation tokens until none remains and returns the union of all pages the
store reports — no item duplicated or dropped — with `_deserialize_item`
applied to each returned item.  (As stated, with filter arguments, the claim
fails: see the counterexample — follow-up requests pass only
`ExclusiveStartKey`, so the filter applies only to the first page.) -/
theorem C2_scan_accumulates_all_pages (segs : List (List ValDict)) (φ : ValDict → Bool) :
    scan_table segs φ false =
      ((specScanPages segs φ false).flatten).map (fun i => deserialize_item (some i)) := by
  unfold scan_table specScanPages
  cases segs with
  | nil => simp [storeScan, scanWhile]
  | cons page more =>
    cases h : more.isEmpty with
    | true =>
      have : more = [] := List.isEmpty_iff.mp h
      subst this
      simp [storeScan, scanWhile]
    | false =>
      simp only [storeScan, Option.getD_none, Bool.false_eq_true, if_false, h]
      rw [scanWhile_eq_flatten]
      simp

/-- Counterexample to C2 as stated: with a filter argument and a two-page
store — page one holding only the item with id 1, page two only the item with
id 2 — and a filter matching only the id-1 item, `scan_table` returns both
items while the union of the store's (filtered) pages contains only the
id-1 item: the second request drops the filter. -/
theorem C2_counterexample :
    scan_table [[ValDict.cons "id" (Val.vint 1) ValDict.nil],
                [ValDict.cons "id" (Val.vint 2) ValDict.nil]]
        (fun d => d == ValDict.cons "id" (Val.vint 1) ValDict.nil) true ≠
      ((specScanPages [[ValDict.cons "id" (Val.vint 1) ValDict.nil],
                [ValDict.cons "id" (Val.vint 2) ValDict.nil]]
        (fun d => d == ValDict.cons "id" (Val.vint 1) ValDict.nil) true).flatten).map
          (fun i => deserialize_item (some i)) := by
  unfold scan_table
  simp only [storeScan, Option.getD_none, List.isEmpty_cons, Bool.false_eq_true, if_false,
    if_true]
  rw [scanWhile_eq_flatten]
  simp [specScanPages, deserialize_item, deserConvertDict, deserConvert]

/-- `find?` over an appended list looks at the second part only after the
first part has no match. -/
theorem find?_append_of_none {α} (p : α → Bool) (l1 l2 : List α) (h : l1.find? p = none) :
    (l1 ++ l2).find? p = l2.find? p := by
  induction l1 with
  | nil => simp
  | cons a l ih =>
    have hpa : ¬ (p a = true) := by
      intro hp
      simp [List.find?_cons_of_pos _ hp] at h
    rw [List.find?_cons_of_neg _ hpa] at h
    rw [List.cons_append, List.find?_cons_of_neg _ hpa]
    exact ih h

/-- C3: `add_stock(distributor_id, product_id, delta)` composes the composite
key by concatenating the two identifiers (with the `#` separator) and issues
the update expression `SET quantity = if_not_exists(quantity, :z) + :q` with
`:q` bound to the delta and `:z` to zero; consequently, under the store's
documented evaluation of that expression (missing attribute treated as zero),
calling it twice with deltas `a` then `b` on a previously absent key leaves a
stored quantity of `a + b`. -/
theorem C3_add_stock_increments (d p : String) (a b : Int) (table0 : String → Option Int)
    (h : table0 (d ++ "#" ++ p) = none) :
    (add_stock d p a).keyId = d ++ "#" ++ p ∧
    (add_stock d p a).update_expr = "SET quantity = if_not_exists(quantity, :z) + :q" ∧
    (add_stock d p a).values = [(":q", a), (":z", 0)] ∧
    applyAddStockUpdate (applyAddStockUpdate table0 (add_stock d p a)) (add_stock d p b)
      (d ++ "#" ++ p) = some (a + b) := by
  refine ⟨rfl, rfl, rfl, ?_⟩
  simp [applyAddStockUpdate, add_stock, h]

/-- Witness for C3: distributor `D1`, product `P1`, deltas 5 then 7 on the
empty table. -/
theorem C3_add_stock_increments_witness :
    (add_stock "D1" "P1" 5).keyId = "D1" ++ "#" ++ "P1" ∧
    (add_stock "D1" "P1" 5).update_expr = "SET quantity = if_not_exists(quantity, :z) + :q" ∧
    (add_stock "D1" "P1" 5).values = [(":q", 5), (":z", 0)] ∧
    applyAddStockUpdate (applyAddStockUpdate (fun _ => none) (add_stock "D1" "P1" 5))
      (add_stock "D1" "P1" 7) ("D1" ++ "#" ++ "P1") = some (5 + 7) :=
  C3_add_stock_increments "D1" "P1" 5 7 (fun _ => none) rfl

/-- C4: `get_item` never raises — its embedding is a total function into
`Option` — and returns the absent result (`none`) both for a nonexistent key
(a response without an `"Item"` entry) and for any underlying error, which is
only logged; an existing item is returned as is. -/
theorem C4_get_item_fails_soft (store : ValDict → Except String (Option ValDict))
    (key : ValDict) :
    (∀ e, store key = .error e → get_item store key = none) ∧
    (store key = .ok none → get_item store key = none) ∧
    (∀ it, store key = .ok (some it) → get_item store key = some it) := by
  refine ⟨fun e he => ?_, fun he => ?_, fun it he => ?_⟩ <;> simp [get_item, he]

/-- Witness for C4 at a store whose call raises. -/
theorem C4_get_item_fails_soft_witness :
    get_item (fun _ => Except.error "ProvisionedThroughputExceededException") ValDict.nil =
      none :=
  (C4_get_item_fails_soft (fun _ => Except.error "ProvisionedThroughputExceededException")
    ValDict.nil).1 "ProvisionedThroughputExceededException" rfl

/-- C5: constructing the Object Store Adapter with a non-string container
identifier (the `none` argument) or one that strips to the empty string
(empty or whitespace-only) raises immediately, with an empty remote-action
trace: no client creation, bucket listing, or bucket creation is attempted. -/
theorem C5_s3_init_fails_fast :
    (∀ region existing, s3Init none region existing =
      ([], .error "S3Manager: A valid S3 bucket name (string) must be provided.")) ∧
    (∀ s region existing, pyStrip s = "" →
      s3Init (some s) region existing =
        ([], .error "S3Manager: A valid S3 bucket name (string) must be provided.")) := by
  constructor
  · intro region existing; rfl
  · intro s region existing h; simp [s3Init, h]

/-- Witness for C5 at the whitespace-only name `"  "` and at a non-string
argument, with a nonempty bucket list that would otherwise be consulted. -/
theorem C5_s3_init_fails_fast_witness :
    pyStrip "  " = "" ∧
    s3Init (some "  ") (some "eu-west-1") ["bucket-a"] =
      ([], .error "S3Manager: A valid S3 bucket name (string) must be provided.") ∧
    s3Init none (some "eu-west-1") ["bucket-a"] =
      ([], .error "S3Manager: A valid S3 bucket name (string) must be provided.") :=
  ⟨by decide, C5_s3_init_fails_fast.2 "  " (some "eu-west-1") ["bucket-a"] (by decide),
    C5_s3_init_fails_fast.1 (some "eu-west-1") ["bucket-a"]⟩

/-- C6: with no topic handle set, every operation except `list_topics` and
`create_topic` — `subscribe`, `list_subscriptions`, `publish_message`,
`send_low_stock_alert`, `ensure_customer_subscription` — raises the
precondition `ValueError`, makes no remote call (empty action trace), and
leaves the adapter state and the provider world unchanged. -/
theorem C6_sns_ops_require_topic (st : SNSState) (w : SNSWorld) (h : st.topic_arn = none) :
    (∀ protocol endpoint fp, SNSManager.subscribe st w protocol endpoint fp =
      (.error "Topic ARN not set. Set or create a topic before subscribing.", st, w, [])) ∧
    (SNSManager.list_subscriptions st w = (.error "Topic ARN not set.", st, w, [])) ∧
    (∀ subject message, SNSManager.publish_message st w subject message =
      (.error "Topic ARN not set.", st, w, [])) ∧
    (∀ product q, SNSManager.send_low_stock_alert st w product q =
      (.error "Topic ARN not set.", st, w, [])) ∧
    (∀ email, SNSManager.ensure_customer_subscription st w email =
      (.error "Topic ARN not set.", st, w, [])) := by
  have ht : st.topicTruthy = false := by simp [SNSState.topicTruthy, h]
  refine ⟨fun protocol endpoint fp => ?_, ?_, fun subject message => ?_,
    fun product q => ?_, fun email => ?_⟩ <;>
    simp [SNSManager.subscribe, SNSManager.list_subscriptions, SNSManager.publish_message,
      SNSManager.send_low_stock_alert, SNSManager.ensure_customer_subscription, ht]

/-- Witness for C6: publishing with an unset topic handle. -/
theorem C6_sns_ops_require_topic_witness :
    SNSManager.publish_message ⟨none⟩ ⟨[], "arn-next", "receipt-1"⟩ "subj" "body" =
      (.error "Topic ARN not set.", ⟨none⟩, ⟨[], "arn-next", "receipt-1"⟩, []) :=
  (C6_sns_ops_require_topic ⟨none⟩ ⟨[], "arn-next", "receipt-1"⟩ rfl).2.2.1 "subj" "body"

/-- C7: `ensure_customer_subscription` is idempotent.  If some current
subscription's endpoint equals the email, the call returns that
subscription's handle and creates nothing (the provider world is unchanged);
and two successive calls with the same email return the same subscription
handle both times. -/
theorem C7_ensure_customer_subscription_idempotent (arn : String) (hne : arn ≠ "")
    (w : SNSWorld) (email : String) :
    (∀ sub, w.subs.find? (fun s => s.endpoint == some email) = some sub →
      SNSManager.ensure_customer_subscription ⟨some arn⟩ w email =
        (.ok sub.subscriptionArn, ⟨some arn⟩, w, [SNSAction.listSubsCall arn])) ∧
    ((SNSManager.ensure_customer_subscription ⟨some arn⟩ w email).1 =
      (SNSManager.ensure_customer_subscription ⟨some arn⟩
        (SNSManager.ensure_customer_subscription ⟨some arn⟩ w email).2.2.1 email).1) := by
  have ht : SNSState.topicTruthy ⟨some arn⟩ = true := by
    simp [SNSState.topicTruthy, hne]
  constructor
  · intro sub hsub
    simp [SNSManager.ensure_customer_subscription, ht, hsub]
  · cases hfind : w.subs.find? (fun s => s.endpoint == some email) with
    | some sub =>
      simp [SNSManager.ensure_customer_subscription, ht, hfind]
    | none =>
      have hfind2 : ((snsWorldAfterSubscribe w email).subs.find?
          (fun s => s.endpoint == some email)) =
          some { endpoint := some email, subscriptionArn := some w.nextArn } := by
        unfold snsWorldAfterSubscribe
        rw [find?_append_of_none _ _ _ hfind]
        simp [List.find?]
      simp [SNSManager.ensure_customer_subscription, ht, hfind, hfind2, snsWorldAfterSubscribe]

/-- Witness for C7: two successive calls for `a@b.com` on a topic with no
prior subscriptions return the same handle. -/
theorem C7_ensure_customer_subscription_idempotent_witness :
    (SNSManager.ensure_customer_subscription ⟨some "arn:topic"⟩
        ⟨[], "arn:sub-1", "receipt-1"⟩ "a@b.com").1 =
      (SNSManager.ensure_customer_subscription ⟨some "arn:topic"⟩
        (SNSManager.ensure_customer_subscription ⟨some "arn:topic"⟩
          ⟨[], "arn:sub-1", "receipt-1"⟩ "a@b.com").2.2.1 "a@b.com").1 :=
  (C7_ensure_customer_subscription_idempotent "arn:topic" (by decide)
    ⟨[], "arn:sub-1", "receipt-1"⟩ "a@b.com").2

/-- Counterexample to C9 as stated: a failure that is not a `ClientError` —
here the `TypeError` raised by `json.dumps` on a payload that is not JSON
serializable — propagates to the caller instead of returning the null
result: the `except` clause catches `ClientError` only. -/
theorem C9_counterexample :
    invoke_function (fun _ _ _ => .error (.otherError "TypeError: not JSON serializable"))
        "notify" "payload" "Event" =
      .error (PyError.otherError "TypeError: not JSON serializable") ∧
    invoke_function (fun _ _ _ => .error (.otherError "TypeError: not JSON serializable"))
        "notify" "payload" "Event" ≠ .ok none := by
  constructor
  · rfl
  · simp [invoke_function]

/-- C9 (amended): a `ClientError` failure of `invoke` returns the null result
with only a logged message and no retry (the embedding makes exactly one
remote attempt), and a success passes the response through; errors other than
`ClientError` are not swallowed (see the counterexample). -/
theorem C9_invoke_swallows_client_errors
    (remote : String → String → String → Except PyError String)
    (fn payload ty : String) :
    (∀ m, remote fn payload ty = .error (.clientError m) →
      invoke_function remote fn payload ty = .ok none) ∧
    (∀ r, remote fn payload ty = .ok r →
      invoke_function remote fn payload ty = .ok (some r)) := by
  constructor
  · intro m hm; simp [invoke_function, hm]
  · intro r hr; simp [invoke_function, hr]

/-- Witness for C9 at a service-reported `ClientError`. -/
theorem C9_invoke_swallows_client_errors_witness :
    invoke_function (fun _ _ _ => .error (.clientError "AccessDeniedException"))
      "notify" "payload" "Event" = .ok none :=
  (C9_invoke_swallows_client_errors (fun _ _ _ => .error (.clientError "AccessDeniedException"))
    "notify" "payload" "Event").1 "AccessDeniedException" rfl

/-- Counterexample to C10 as stated: `below_threshold` is not total.  When the
first coercion fails with an error other than `TypeError`/`ValueError` — as
`int(float("inf"))` does with `OverflowError` — the error propagates instead
of yielding `False`. -/
theorem C10_counterexample :
    below_threshold CoerceResult.overflowError (CoerceResult.ok 5) =
      .error CoerceResult.overflowError ∧
    below_threshold CoerceResult.overflowError (CoerceResult.ok 5) ≠ .ok false := by
  constructor
  · rfl
  · simp [below_threshold, caughtByExcept]

/-- C10 (amended): `below_threshold` returns `int(quantity) <= int(threshold)`
when both coercions succeed, and `False` when a coercion fails with a
`TypeError` or `ValueError`; it is total on exactly those inputs, while other
coercion errors propagate (see the counterexample). -/
theorem C10_below_threshold_amended :
    (∀ qi ti : Int, below_threshold (.ok qi) (.ok ti) = .ok (decide (qi ≤ ti))) ∧
    (∀ e t, caughtByExcept e = true → below_threshold e t = .ok false) ∧
    (∀ (qi : Int) (e : CoerceResult), caughtByExcept e = true →
      below_threshold (.ok qi) e = .ok false) := by
  refine ⟨fun qi ti => rfl, fun e t he => ?_, fun qi e he => ?_⟩
  · cases e with
    | ok n => simp [caughtByExcept] at he
    | typeError => cases t <;> rfl
    | valueError => cases t <;> rfl
    | overflowError => simp [caughtByExcept] at he
  · cases e with
    | ok n => simp [caughtByExcept] at he
    | typeError => rfl
    | valueError => rfl
    | overflowError => simp [caughtByExcept] at he

/-- Witness for C10 at a `TypeError`-raising first argument. -/
theorem C10_below_threshold_amended_witness :
    below_threshold CoerceResult.typeError (CoerceResult.ok 3) = .ok false :=
  C10_below_threshold_amended.2.1 CoerceResult.typeError (CoerceResult.ok 3) rfl
